import Mathlib

/-!
Verification development for the ollama-hunter discovery pipeline.

The repository consists of two near-identical discovery scripts
(`shodan_ollama.py` / `shodan-ollama.py` for the Ollama family, and
`shodan_llamacpp.py` for the llama.cpp family) plus a small single-host
helper (`list_ollama.py`).  This file gives a shallow embedding of the
pipeline: JSON values, HTTP responses, the two probe strategies
(`test_ollama_server`, `test_llama_cpp_server`), the paginated search
loop, candidate-set deduplication, the result-aggregation loop run over
completed probe futures, and the final report envelope.

Modelling conventions:
  * Python exceptions are modelled with `Except String`; a `try/except`
    becomes a `match` that maps `.error` to the handler's behaviour.
  * `requests` responses are a record carrying the status code, the
    `Server` and `Content-Type` headers (already extracted, with the
    Python default of the empty string when the header is absent), the
    result of `response.json()` (which may raise, hence `Except`), and
    `response.text`.
  * Shodan is abstracted as two functions: `search : query -> page ->
    Except String (List Match)` and `host : ip -> Except String Json`.
  * The `as_completed` collection loop processes each future
    independently; completion order is modelled by the order of the
    candidate list, which is irrelevant to the membership-style
    properties proved below.
-/

/-- JSON values, as produced by `response.json()`. -/
inductive Json where
  | null
  | bool (b : Bool)
  | num (n : Int)
  | str (s : String)
  | arr (items : List Json)
  | obj (fields : List (String × Json))

/-- First-match key lookup in a JSON object's field list
(Python dict indexing / `in` test). -/
def lookupField (fs : List (String × Json)) (k : String) : Option Json :=
  match fs with
  | [] => none
  | (k2, v) :: t => if k2 = k then some v else lookupField t k

/-- Python `value[key]` subscription: succeeds only on a dict containing
the key; anything else raises (KeyError / TypeError). -/
def pyGetItem (j : Json) (k : String) : Except String Json :=
  match j with
  | Json.obj fs =>
    match lookupField fs k with
    | some v => Except.ok v
    | none => Except.error "KeyError"
  | _ => Except.error "TypeError"

/-- Python `value.get(key, default)`: succeeds only on a dict (other
values have no `.get` attribute and raise AttributeError). -/
def pyGetDefault (j : Json) (k : String) (d : Json) : Except String Json :=
  match j with
  | Json.obj fs => Except.ok ((lookupField fs k).getD d)
  | _ => Except.error "AttributeError"

/-- Python iteration `for x in value`: lists yield their items, dicts
their keys, strings their characters; other values raise TypeError. -/
def pyIter (j : Json) : Except String (List Json) :=
  match j with
  | Json.arr items => Except.ok items
  | Json.obj fs => Except.ok (fs.map (fun kv => Json.str kv.1))
  | Json.str s => Except.ok (s.data.map (fun ch => Json.str (String.singleton ch)))
  | _ => Except.error "TypeError"

/-- Does `listStarts need hay` hold, i.e. is `need` an initial segment
of `hay`? Auxiliary for the Python substring test. -/
def listStarts (need hay : List Char) : Bool :=
  match need, hay with
  | [], _ => true
  | _ :: _, [] => false
  | a :: as, b :: bs => a == b && listStarts as bs

/-- Auxiliary: does `need` occur as a contiguous segment of `hay`? -/
def listInside (need hay : List Char) : Bool :=
  match hay with
  | [] => listStarts need []
  | _ :: t => listStarts need hay || listInside need t

/-- Python substring test `sub in s`. -/
def strContains (s sub : String) : Bool :=
  listInside sub.data s.data

/-- Python `str.lower()`, modelled as per-character ASCII lowering
(all header and signature strings involved are ASCII). -/
def pyLower (s : String) : String :=
  String.mk (s.data.map Char.toLower)

/-- A `requests` HTTP response as the probe code observes it. -/
structure HttpResponse where
  status : Nat
  server : String
  contentType : String
  jsonBody : Except String Json
  text : String

/-- `response.raise_for_status()`: raises HTTPError exactly for
4xx/5xx status codes. -/
def raise_for_status (r : HttpResponse) : Except String Unit :=
  if 400 ≤ r.status ∧ r.status < 600 then Except.error "HTTPError"
  else Except.ok ()

/-- Strategy A probe body (`test_ollama_server` in `shodan_ollama.py` /
`shodan-ollama.py`) before its enclosing `try/except`: GET
`/api/tags`, raise on HTTP error, parse JSON, and extract the
`name` field of each entry under `models` (new API) or `tags`
(old API); any other top-level shape yields the sentinel list
`["Error: Unexpected API response format"]`.  The argument is the
outcome of `requests.get` (which may itself raise). -/
def test_ollama_server_raw (resp : Except String HttpResponse) :
    Except String (List Json) :=
  match resp with
  | Except.error e => Except.error e
  | Except.ok r =>
    match raise_for_status r with
    | Except.error e => Except.error e
    | Except.ok _ =>
      match r.jsonBody with
      | Except.error e => Except.error e
      | Except.ok models_data =>
        match models_data with
        | Json.obj fs =>
          match lookupField fs "models" with
          | some v =>
            match pyIter v with
            | Except.error e => Except.error e
            | Except.ok items => items.mapM (fun m => pyGetItem m "name")
          | none =>
            match lookupField fs "tags" with
            | some v =>
              match pyIter v with
              | Except.error e => Except.error e
              | Except.ok items => items.mapM (fun m => pyGetItem m "name")
            | none =>
              Except.ok [Json.str "Error: Unexpected API response format"]
        | _ => Except.ok [Json.str "Error: Unexpected API response format"]

/-- Strategy A probe: the `try/except` wrapper turning any exception
into `None`. -/
def test_ollama_server (resp : Except String HttpResponse) :
    Option (List Json) :=
  match test_ollama_server_raw resp with
  | Except.ok v => some v
  | Except.error _ => none

/-- Strategy A probe as its caller sees it through the exception
layer: the `except` clause returns `None`, so no exception escapes. -/
def test_ollama_server_exc (resp : Except String HttpResponse) :
    Except String (Option (List Json)) :=
  match test_ollama_server_raw resp with
  | Except.ok v => Except.ok (some v)
  | Except.error _ => Except.ok none

/-- The ordered endpoint list tried by `test_llama_cpp_server`. -/
def endpoints : List String :=
  ["/v1/models", "/", "/model", "/v1/completions"]

/-- Common ports for llama.cpp servers (`COMMON_PORTS` in
`shodan_llamacpp.py`). -/
def COMMON_PORTS : List Int := [8080, 8000, 3000, 7860, 5000, 8888]

/-- Classification result of the Strategy B probe: the four dict shapes
`test_llama_cpp_server` can return (the `web_interface` dict carries
the constant title `"llama.cpp"`). -/
inductive LlamaResult where
  | openai_compatible (endpoint : String) (models : List Json) (raw_data : Json)
  | server_header (endpoint : String) (server : String)
  | jsonData (endpoint : String) (data : Json)
  | web_interface (endpoint : String)

/-- Strategy B, check 1: on `/v1/models` with a JSON content type,
parse the body; a dict containing `"data"` is classified
`openai_compatible` with `model.get("id", "")` extracted per entry.
Any exception inside this block is swallowed (`except: pass`),
falling through to the later checks. -/
def tryModelsCheck (ep : String) (content_type : String) (r : HttpResponse) :
    Option LlamaResult :=
  if ep = "/v1/models" ∧ strContains content_type "json" then
    match r.jsonBody with
    | Except.error _ => none
    | Except.ok (Json.obj fs) =>
      match lookupField fs "data" with
      | some d =>
        match pyIter d with
        | Except.error _ => none
        | Except.ok items =>
          match items.mapM (fun m => pyGetDefault m "id" (Json.str "")) with
          | Except.error _ => none
          | Except.ok models =>
            some (LlamaResult.openai_compatible ep models (Json.obj fs))
      | none => none
    | Except.ok _ => none
  else none

/-- Strategy B, check 3: a JSON content type whose body parses to a
dict is classified generically as `json`; parse errors are swallowed
and a non-dict body falls through to the HTML check. -/
def tryJsonCheck (ep : String) (content_type : String) (r : HttpResponse) :
    Option LlamaResult :=
  if strContains content_type "json" then
    match r.jsonBody with
    | Except.ok (Json.obj fs) => some (LlamaResult.jsonData ep (Json.obj fs))
    | Except.ok _ => none
    | Except.error _ => none
  else none

/-- The per-endpoint body of `test_llama_cpp_server` on a received
response: status must be 200, then the four checks are applied in
order — model list, `Server` header signature, generic JSON dict,
HTML body containing the signature. -/
def endpointChecks (ep : String) (r : HttpResponse) : Option LlamaResult :=
  if r.status = 200 then
    let server_header := pyLower r.server
    let content_type := pyLower r.contentType
    match tryModelsCheck ep content_type r with
    | some res => some res
    | none =>
      if strContains server_header "llama.cpp" then
        some (LlamaResult.server_header ep server_header)
      else
        match tryJsonCheck ep content_type r with
        | some res => some res
        | none =>
          if strContains content_type "text/html" ∧
              strContains (pyLower r.text) "llama.cpp" then
            some (LlamaResult.web_interface ep)
          else none
  else none

/-- One endpoint attempt including the `requests.get` call, which may
raise; the raised exception is what the per-endpoint `except:
continue` catches. -/
def probe_endpoint_raw (ep : String) (resp : Except String HttpResponse) :
    Except String (Option LlamaResult) :=
  match resp with
  | Except.error e => Except.error e
  | Except.ok r => Except.ok (endpointChecks ep r)

/-- The endpoint loop of `test_llama_cpp_server`: endpoints are tried
in order; a per-endpoint exception or a negative check result moves
on to the next endpoint (`except: continue` / fall-through), and the
first positive signal is returned.  The network behaviour `b` maps an
endpoint path to the outcome of `requests.get` on it. -/
def probeEndpointsExc (b : String → Except String HttpResponse) :
    List String → Except String (Option LlamaResult)
  | [] => Except.ok none
  | ep :: rest =>
    match probe_endpoint_raw ep (b ep) with
    | Except.error _ => probeEndpointsExc b rest
    | Except.ok (some res) => Except.ok (some res)
    | Except.ok none => probeEndpointsExc b rest

/-- Strategy B probe (`test_llama_cpp_server` in `shodan_llamacpp.py`):
the endpoint loop under the outer `try/except` that returns `None`. -/
def test_llama_cpp_server (b : String → Except String HttpResponse) :
    Option LlamaResult :=
  match probeEndpointsExc b endpoints with
  | Except.ok v => v
  | Except.error _ => none

/-- Strategy B probe as seen through the exception layer: the outer
`try/except Exception: pass` followed by `return None` means no
exception escapes to the caller. -/
def test_llama_cpp_server_exc (b : String → Except String HttpResponse) :
    Except String (Option LlamaResult) :=
  match probeEndpointsExc b endpoints with
  | Except.ok v => Except.ok v
  | Except.error _ => Except.ok none

/-- A discovery candidate: an (address, port) pair. -/
abbrev Candidate := String × Int

/-- A raw Shodan search match as the loops consume it: the `ip_str`
field and the optional integer `port` field of the match dict. -/
structure ShodanMatch where
  ip_str : String
  port : Option Int

/-- Idempotent insertion into the candidate set (`all_results.add`,
with the Python `set` modelled as a duplicate-free list). -/
def addCand (s : List Candidate) (c : Candidate) : List Candidate :=
  if c ∈ s then s else c :: s

/-- Candidate extraction for the Ollama family:
`port = result.get("port", 11434)` — one candidate, defaulting the
port to 11434 when the match omits it. -/
def ollamaCandidatesOfMatch (m : ShodanMatch) : List Candidate :=
  [(m.ip_str, m.port.getD 11434)]

/-- Candidate extraction for the llama.cpp family:
`port = result.get("port", None); if port: add((ip, port)) else:
fan out over COMMON_PORTS`.  Python truthiness makes a present but
zero port take the fan-out branch. -/
def llamaCandidatesOfMatch (m : ShodanMatch) : List Candidate :=
  match m.port with
  | some p => if p ≠ 0 then [(m.ip_str, p)] else COMMON_PORTS.map (fun q => (m.ip_str, q))
  | none => COMMON_PORTS.map (fun q => (m.ip_str, q))

/-- Add all candidates of one Ollama-family match to the set. -/
def addMatchOllama (s : List Candidate) (m : ShodanMatch) : List Candidate :=
  (ollamaCandidatesOfMatch m).foldl addCand s

/-- Add all candidates of one llama.cpp-family match to the set. -/
def addMatchLlama (s : List Candidate) (m : ShodanMatch) : List Candidate :=
  (llamaCandidatesOfMatch m).foldl addCand s

/-- The paginated search loop body shared by both scripts:
`for page in range(1, 11): ...` with `limit=100`.  `search` maps a
page number to the match list Shodan returned for it (or to a raised
exception).  The result records the pages actually fetched and the
matches collected: an errored page is skipped (`except: continue`),
and a page with fewer than 100 matches is processed and then ends the
loop (`break`).  `fuel` is the number of loop iterations remaining. -/
def collectPages (search : Nat → Except String (List ShodanMatch)) :
    Nat → Nat → List Nat × List ShodanMatch
  | _, 0 => ([], [])
  | page, fuel + 1 =>
    match search page with
    | Except.error _ =>
      let r := collectPages search (page + 1) fuel
      (page :: r.1, r.2)
    | Except.ok ms =>
      if ms.length < 100 then ([page], ms)
      else
        let r := collectPages search (page + 1) fuel
        (page :: r.1, ms ++ r.2)

/-- One full query: pages 1 through at most 10. -/
def runQuery (search : Nat → Except String (List ShodanMatch)) :
    List Nat × List ShodanMatch :=
  collectPages search 1 10

/-- The Ollama-family search query list (both Ollama scripts use the
same thirteen queries). -/
def ollamaQueries : List String :=
  ["product:\"Ollama\"",
   "port:11434",
   "ollama",
   "http.title:\"Ollama\"",
   "\"Ollama API\" port:11434",
   "\"Ollama API\"",
   "http.favicon.hash:-1959422854",
   "http.html:\"ollama\"",
   "http.component:\"Ollama\"",
   "\"Content-Type: text/plain\" port:11434",
   "port:11434 \"HTTP/1.1 200 OK\"",
   "http.status:200 port:11434",
   "http.response.headers.content-type:\"text/plain\" port:11434"]

/-- The llama.cpp-family search query list: six base queries plus one
port-specific query per common port. -/
def llamaQueries : List String :=
  ["title:\"llama.cpp\"",
   "title:\"llama.cpp - chat\"",
   "server:\"llama.cpp\"",
   "http.html:\"llama.cpp\"",
   "http.html:\"llama-cpp-python\"",
   "product:\"llama.cpp\""] ++
  COMMON_PORTS.map (fun p => "port:" ++ toString p ++ " title:\"llama.cpp\"")

/-- Discovery phase of `get_ollama_servers_with_models`: iterate the
queries, paginate each, and accumulate deduplicated candidates. -/
def discoverOllama (search : String → Nat → Except String (List ShodanMatch)) :
    List Candidate :=
  ollamaQueries.foldl
    (fun acc q => ((runQuery (search q)).2).foldl addMatchOllama acc) []

/-- Discovery phase of `get_llama_cpp_servers`. -/
def discoverLlama (search : String → Nat → Except String (List ShodanMatch)) :
    List Candidate :=
  llamaQueries.foldl
    (fun acc q => ((runQuery (search q)).2).foldl addMatchLlama acc) []

/-- A reported Ollama server record (`server_info` dict assembled in
the aggregation loop of the Ollama scripts). -/
structure ServerInfo where
  ip_str : String
  port : Int
  country_name : Json
  city_name : Json
  org : Json
  hostnames : Json
  models : List Json

/-- A reported llama.cpp server record (`server_data` dict assembled
in the aggregation loop of `shodan_llamacpp.py`). -/
structure LlamaServerData where
  ip_str : String
  port : Int
  server_info : LlamaResult
  country_name : Json
  city_name : Json
  org : Json
  hostnames : Json

/-- One iteration of the Ollama `as_completed` loop.  `futRes` is
`future.result()` for the candidate: it may re-raise an exception
(caught by the outer `except ...: continue`), or yield the probe
return value.  On a non-`None` probe value, `api.host(ip)` is looked
up inside the inner `try`; a lookup exception means `continue`
(dropping the candidate).  Only a non-empty model list is appended,
with each enrichment field read via `host.get(key, default)`. -/
def processOllamaCandidate (hostLookup : String → Except String Json)
    (futRes : Candidate → Except String (Option (List Json)))
    (c : Candidate) : Option ServerInfo :=
  match futRes c with
  | Except.error _ => none
  | Except.ok none => none
  | Except.ok (some models) =>
    match hostLookup c.1 with
    | Except.error _ => none
    | Except.ok host =>
      if models.isEmpty then none
      else
        match pyGetDefault host "country_name" (Json.str "Unknown"),
            pyGetDefault host "city_name" (Json.str "Unknown"),
            pyGetDefault host "org" (Json.str "Unknown"),
            pyGetDefault host "hostnames" (Json.arr []) with
        | Except.ok country, Except.ok city, Except.ok org, Except.ok hostnames =>
          some { ip_str := c.1, port := c.2, country_name := country,
                 city_name := city, org := org, hostnames := hostnames,
                 models := models }
        | _, _, _, _ => none

/-- One iteration of the llama.cpp `as_completed` loop: identical
shape, but with no emptiness filter on the probe payload. -/
def processLlamaCandidate (hostLookup : String → Except String Json)
    (futRes : Candidate → Except String (Option LlamaResult))
    (c : Candidate) : Option LlamaServerData :=
  match futRes c with
  | Except.error _ => none
  | Except.ok none => none
  | Except.ok (some info) =>
    match hostLookup c.1 with
    | Except.error _ => none
    | Except.ok host =>
      match pyGetDefault host "country_name" (Json.str "Unknown"),
          pyGetDefault host "city_name" (Json.str "Unknown"),
          pyGetDefault host "org" (Json.str "Unknown"),
          pyGetDefault host "hostnames" (Json.arr []) with
      | Except.ok country, Except.ok city, Except.ok org, Except.ok hostnames =>
        some { ip_str := c.1, port := c.2, server_info := info,
               country_name := country, city_name := city, org := org,
               hostnames := hostnames }
      | _, _, _, _ => none

/-- The full Ollama aggregation loop over the completed futures. -/
def aggregateOllama (hostLookup : String → Except String Json)
    (futRes : Candidate → Except String (Option (List Json)))
    (cands : List Candidate) : List ServerInfo :=
  cands.filterMap (processOllamaCandidate hostLookup futRes)

/-- The full llama.cpp aggregation loop over the completed futures. -/
def aggregateLlama (hostLookup : String → Except String Json)
    (futRes : Candidate → Except String (Option LlamaResult))
    (cands : List Candidate) : List LlamaServerData :=
  cands.filterMap (processLlamaCandidate hostLookup futRes)

/-- The run result: either the JSON array of server records, or the
diagnostic envelope `{"error": ..., "debug_info": {"total_unique_ips":
..., "queries": [...]}}` emitted when the server list is empty. -/
inductive Report (α : Type) where
  | servers (l : List α)
  | diagnostic (errMsg : String) (total_unique_ips : Nat) (queries : List String)

/-- `get_ollama_servers_with_models`, composed from discovery,
aggregation over completed probes, and the final envelope choice.
`futRes` abstracts `future.result()` for each candidate probe. -/
def get_ollama_servers_with_models
    (search : String → Nat → Except String (List ShodanMatch))
    (hostLookup : String → Except String Json)
    (futRes : Candidate → Except String (Option (List Json))) :
    Report ServerInfo :=
  let all_results := discoverOllama search
  let servers := aggregateOllama hostLookup futRes all_results
  if servers.isEmpty then
    Report.diagnostic "No accessible Ollama servers found"
      all_results.length ollamaQueries
  else Report.servers servers

/-- `get_llama_cpp_servers`, composed the same way. -/
def get_llama_cpp_servers
    (search : String → Nat → Except String (List ShodanMatch))
    (hostLookup : String → Except String Json)
    (futRes : Candidate → Except String (Option LlamaResult)) :
    Report LlamaServerData :=
  let all_results := discoverLlama search
  let servers := aggregateLlama hostLookup futRes all_results
  if servers.isEmpty then
    Report.diagnostic "No accessible llama.cpp servers found"
      all_results.length llamaQueries
  else Report.servers servers

/-! ### Helper lemmas -/

theorem addCand_toFinset (s : List Candidate) (c : Candidate) :
    (addCand s c).toFinset = insert c s.toFinset := by
  unfold addCand
  split
  · exact (Finset.insert_eq_self.mpr (List.mem_toFinset.mpr (by assumption))).symm
  · exact List.toFinset_cons

theorem addCand_nodup (s : List Candidate) (c : Candidate) (h : s.Nodup) :
    (addCand s c).Nodup := by
  unfold addCand
  split
  · exact h
  · exact List.nodup_cons.mpr ⟨by assumption, h⟩

theorem foldl_addCand_nodup (l : List Candidate) :
    ∀ s : List Candidate, s.Nodup → (l.foldl addCand s).Nodup := by
  induction l with
  | nil => intro s hs; exact hs
  | cons c t ih => intro s hs; exact ih (addCand s c) (addCand_nodup s c hs)

theorem foldl_addCand_toFinset (l : List Candidate) :
    ∀ s : List Candidate, (l.foldl addCand s).toFinset = s.toFinset ∪ l.toFinset := by
  induction l with
  | nil => intro s; simp
  | cons c t ih =>
    intro s
    have h1 := ih (addCand s c)
    simp only [List.foldl_cons, h1, addCand_toFinset, List.toFinset_cons,
      Finset.insert_union, Finset.union_insert]

theorem addMatchOllama_nodup (s : List Candidate) (m : ShodanMatch)
    (h : s.Nodup) : (addMatchOllama s m).Nodup :=
  foldl_addCand_nodup _ s h

theorem addMatchLlama_nodup (s : List Candidate) (m : ShodanMatch)
    (h : s.Nodup) : (addMatchLlama s m).Nodup :=
  foldl_addCand_nodup _ s h

theorem foldl_addMatchOllama_nodup (ms : List ShodanMatch) :
    ∀ s : List Candidate, s.Nodup → (ms.foldl addMatchOllama s).Nodup := by
  induction ms with
  | nil => intro s hs; exact hs
  | cons m t ih => intro s hs; exact ih _ (addMatchOllama_nodup s m hs)

theorem foldl_addMatchLlama_nodup (ms : List ShodanMatch) :
    ∀ s : List Candidate, s.Nodup → (ms.foldl addMatchLlama s).Nodup := by
  induction ms with
  | nil => intro s hs; exact hs
  | cons m t ih => intro s hs; exact ih _ (addMatchLlama_nodup s m hs)

theorem discoverOllama_nodup
    (search : String → Nat → Except String (List ShodanMatch)) :
    (discoverOllama search).Nodup := by
  unfold discoverOllama
  have h : ∀ (qs : List String) (s : List Candidate), s.Nodup →
      (qs.foldl (fun acc q => ((runQuery (search q)).2).foldl addMatchOllama acc) s).Nodup := by
    intro qs
    induction qs with
    | nil => intro s hs; exact hs
    | cons q t ih => intro s hs; exact ih _ (foldl_addMatchOllama_nodup _ s hs)
  exact h ollamaQueries [] List.nodup_nil

theorem discoverLlama_nodup
    (search : String → Nat → Except String (List ShodanMatch)) :
    (discoverLlama search).Nodup := by
  unfold discoverLlama
  have h : ∀ (qs : List String) (s : List Candidate), s.Nodup →
      (qs.foldl (fun acc q => ((runQuery (search q)).2).foldl addMatchLlama acc) s).Nodup := by
    intro qs
    induction qs with
    | nil => intro s hs; exact hs
    | cons q t ih => intro s hs; exact ih _ (foldl_addMatchLlama_nodup _ s hs)
  exact h llamaQueries [] List.nodup_nil

theorem collectPages_length_le
    (search : Nat → Except String (List ShodanMatch)) :
    ∀ (fuel page : Nat), (collectPages search page fuel).1.length ≤ fuel := by
  intro fuel
  induction fuel with
  | zero => intro page; simp [collectPages]
  | succ f ih =>
    intro page
    unfold collectPages
    match h : search page with
    | Except.error e =>
      simpa using Nat.succ_le_succ (ih (page + 1))
    | Except.ok ms =>
      by_cases hlen : ms.length < 100
      · simp [hlen]
      · simpa [hlen] using Nat.succ_le_succ (ih (page + 1))

theorem collectPages_exact
    (search : Nat → Except String (List ShodanMatch)) :
    ∀ (k page fuel : Nat),
      (∀ i, page ≤ i → i < page + k →
        ∃ ms, search i = Except.ok ms ∧ ms.length = 100) →
      (∃ ms, search (page + k) = Except.ok ms ∧ ms.length < 100) →
      k < fuel →
      (collectPages search page fuel).1 = List.range' page (k + 1) := by
  intro k
  induction k with
  | zero =>
    intro page fuel _ hshort hfuel
    obtain ⟨ms, hs, hlen⟩ := hshort
    match fuel, hfuel with
    | f + 1, _ =>
      unfold collectPages
      rw [Nat.add_zero] at hs
      rw [hs]
      simp [hlen, List.range'_succ]
  | succ k ih =>
    intro page fuel hfull hshort hfuel
    obtain ⟨ms, hs, hlen⟩ := hfull page (Nat.le_refl page)
      (by omega)
    match fuel, hfuel with
    | f + 1, hfuel =>
      unfold collectPages
      rw [hs]
      have hnotlt : ¬ ms.length < 100 := by omega
      simp only [hnotlt, if_false]
      have hrec := ih (page + 1) f
        (fun i h1 h2 => hfull i (by omega) (by omega))
        (by
          obtain ⟨ms2, hs2, hlen2⟩ := hshort
          exact ⟨ms2, by rw [show page + 1 + k = page + (k + 1) by omega]; exact hs2, hlen2⟩)
        (by omega)
      rw [hrec]
      exact (List.range'_succ page (k + 1) 1).symm

theorem processOllamaCandidate_stamp
    (hostLookup : String → Except String Json)
    (futRes : Candidate → Except String (Option (List Json)))
    (c : Candidate) (s : ServerInfo)
    (h : processOllamaCandidate hostLookup futRes c = some s) :
    s.ip_str = c.1 ∧ s.port = c.2 := by
  unfold processOllamaCandidate at h
  match h1 : futRes c with
  | Except.error e => rw [h1] at h; exact absurd h (by simp)
  | Except.ok none => rw [h1] at h; exact absurd h (by simp)
  | Except.ok (some models) =>
    rw [h1] at h
    match h2 : hostLookup c.1 with
    | Except.error e => rw [h2] at h; exact absurd h (by simp)
    | Except.ok host =>
      rw [h2] at h
      cases models with
      | nil => simp at h
      | cons m ms =>
        cases host with
        | obj fs =>
          simp only [pyGetDefault, List.isEmpty_cons, Bool.false_eq_true,
            if_false, Option.some.injEq] at h
          subst h
          exact ⟨rfl, rfl⟩
        | null => simp [pyGetDefault] at h
        | bool b => simp [pyGetDefault] at h
        | num n => simp [pyGetDefault] at h
        | str s2 => simp [pyGetDefault] at h
        | arr a => simp [pyGetDefault] at h

theorem processLlamaCandidate_stamp
    (hostLookup : String → Except String Json)
    (futRes : Candidate → Except String (Option LlamaResult))
    (c : Candidate) (s : LlamaServerData)
    (h : processLlamaCandidate hostLookup futRes c = some s) :
    s.ip_str = c.1 ∧ s.port = c.2 := by
  unfold processLlamaCandidate at h
  match h1 : futRes c with
  | Except.error e => rw [h1] at h; exact absurd h (by simp)
  | Except.ok none => rw [h1] at h; exact absurd h (by simp)
  | Except.ok (some info) =>
    rw [h1] at h
    match h2 : hostLookup c.1 with
    | Except.error e => rw [h2] at h; exact absurd h (by simp)
    | Except.ok host =>
      rw [h2] at h
      match host with
      | Json.obj fs =>
        simp only [pyGetDefault, Option.some.injEq] at h
        subst h
        exact ⟨rfl, rfl⟩
      | Json.null => simp [pyGetDefault] at h
      | Json.bool b => simp [pyGetDefault] at h
      | Json.num n => simp [pyGetDefault] at h
      | Json.str s2 => simp [pyGetDefault] at h
      | Json.arr a => simp [pyGetDefault] at h

theorem processOllamaCandidate_error
    (hostLookup : String → Except String Json)
    (futRes : Candidate → Except String (Option (List Json)))
    (c : Candidate) (e : String) (h : futRes c = Except.error e) :
    processOllamaCandidate hostLookup futRes c = none := by
  unfold processOllamaCandidate
  rw [h]

theorem processLlamaCandidate_error
    (hostLookup : String → Except String Json)
    (futRes : Candidate → Except String (Option LlamaResult))
    (c : Candidate) (e : String) (h : futRes c = Except.error e) :
    processLlamaCandidate hostLookup futRes c = none := by
  unfold processLlamaCandidate
  rw [h]

theorem processOllamaCandidate_congr
    (hostLookup : String → Except String Json)
    (f g : Candidate → Except String (Option (List Json)))
    (c : Candidate) (h : f c = g c) :
    processOllamaCandidate hostLookup f c = processOllamaCandidate hostLookup g c := by
  unfold processOllamaCandidate
  rw [h]

theorem processLlamaCandidate_congr
    (hostLookup : String → Except String Json)
    (f g : Candidate → Except String (Option LlamaResult))
    (c : Candidate) (h : f c = g c) :
    processLlamaCandidate hostLookup f c = processLlamaCandidate hostLookup g c := by
  unfold processLlamaCandidate
  rw [h]

theorem filterMap_agree_drop {β : Type}
    (f g : Candidate → Option β) (X : Candidate)
    (hX : f X = none) (hagree : ∀ c, c ≠ X → f c = g c) :
    ∀ l : List Candidate,
      l.filterMap f = (l.filter (fun c => decide (c ≠ X))).filterMap g := by
  intro l
  induction l with
  | nil => rfl
  | cons a t ih =>
    by_cases ha : a = X
    · subst ha
      simp only [List.filterMap_cons, hX, List.filter_cons, decide_not,
        decide_eq_true_eq]
      simp [ih]
    · simp only [List.filterMap_cons, hagree a ha, List.filter_cons]
      have : (decide (a ≠ X)) = true := by simp [ha]
      rw [this]
      simp only [if_true, List.filterMap_cons]
      match g a with
      | none => exact ih
      | some b => rw [ih]

/-! ### Claim theorems -/

/-- Claim C5: for every query, the search loop fetches pages
sequentially from page 1 and stops after at most 10 pages, or
immediately after the first page returning fewer than 100 matches;
when the index returns exactly 100 matches on pages 1..N (N + 1 ≤ 10)
and fewer on page N + 1, exactly the pages 1..N+1 are fetched. -/
theorem claim_C5 (search : Nat → Except String (List ShodanMatch)) (N : Nat)
    (hN : N + 1 ≤ 10)
    (hfull : ∀ i, 1 ≤ i → i ≤ N → ∃ ms, search i = Except.ok ms ∧ ms.length = 100)
    (hshort : ∃ ms, search (N + 1) = Except.ok ms ∧ ms.length < 100) :
    (runQuery search).1 = List.range' 1 (N + 1) ∧
    (runQuery search).1.length = N + 1 ∧
    ∀ s2 : Nat → Except String (List ShodanMatch), (runQuery s2).1.length ≤ 10 := by
  have hmain : (collectPages search 1 10).1 = List.range' 1 (N + 1) := by
    apply collectPages_exact search N 1 10
    · intro i h1 h2; exact hfull i h1 (by omega)
    · obtain ⟨ms, hs, hl⟩ := hshort
      exact ⟨ms, by rw [show 1 + N = N + 1 by omega]; exact hs, hl⟩
    · omega
  refine ⟨hmain, ?_, ?_⟩
  · rw [show (runQuery search).1 = (collectPages search 1 10).1 from rfl, hmain]
    simp [List.length_range']
  · intro s2; exact collectPages_length_le s2 10 1

/-- Mock index for the C5 witness: pages 1 and 2 full, page 3 short. -/
def c5SearchMock : Nat → Except String (List ShodanMatch) :=
  fun i => if i ≤ 2 then Except.ok (List.replicate 100 ⟨"1.2.3.4", some 11434⟩)
           else Except.ok [⟨"5.6.7.8", some 11434⟩]

/-- Witness for C5 at N = 2: exactly pages 1, 2, 3 are fetched. -/
theorem claim_C5_witness :
    (runQuery c5SearchMock).1 = List.range' 1 3 ∧
    (runQuery c5SearchMock).1.length = 3 ∧
    ∀ s2 : Nat → Except String (List ShodanMatch), (runQuery s2).1.length ≤ 10 :=
  claim_C5 c5SearchMock 2 (by omega)
    (fun i _ h2 => ⟨List.replicate 100 ⟨"1.2.3.4", some 11434⟩,
      by unfold c5SearchMock; rw [if_pos h2], by simp⟩)
    ⟨[⟨"5.6.7.8", some 11434⟩], rfl, by simp⟩

/-- Claim C6: folding any insertion sequence through `addCand` yields a
duplicate-free candidate set whose size is the number of distinct
(address, port) pairs inserted, and insertion is idempotent. -/
theorem claim_C6 :
    (∀ l : List Candidate, (l.foldl addCand []).Nodup) ∧
    (∀ l : List Candidate, (l.foldl addCand []).length = l.toFinset.card) ∧
    (∀ (s : List Candidate) (c : Candidate), addCand (addCand s c) c = addCand s c) := by
  refine ⟨?_, ?_, ?_⟩
  · intro l; exact foldl_addCand_nodup l [] List.nodup_nil
  · intro l
    have h1 := foldl_addCand_nodup l [] List.nodup_nil
    have h2 := foldl_addCand_toFinset l []
    rw [← List.toFinset_card_of_nodup h1, h2]
    simp
  · intro s c
    by_cases hcs : c ∈ s
    · simp [addCand, hcs]
    · simp [addCand, hcs]

/-- Claim C9 (amended): a match advertising a nonzero port yields one
candidate with that port in both families; the Ollama family uses the
advertised port unconditionally and defaults to 11434 when the match
omits it, while the llama.cpp family fans an omitted (or falsy, i.e.
zero) port out over the six common ports. -/
theorem claim_C9_amended :
    (∀ (m : ShodanMatch) (p : Int), m.port = some p →
       ollamaCandidatesOfMatch m = [(m.ip_str, p)]) ∧
    (∀ m : ShodanMatch, m.port = none →
       ollamaCandidatesOfMatch m = [(m.ip_str, 11434)]) ∧
    (∀ (m : ShodanMatch) (p : Int), m.port = some p → p ≠ 0 →
       llamaCandidatesOfMatch m = [(m.ip_str, p)]) ∧
    (∀ m : ShodanMatch, m.port = none ∨ m.port = some 0 →
       llamaCandidatesOfMatch m = COMMON_PORTS.map (fun q => (m.ip_str, q))) := by
  refine ⟨?_, ?_, ?_, ?_⟩
  · intro m p hp; unfold ollamaCandidatesOfMatch; rw [hp]; rfl
  · intro m hp; unfold ollamaCandidatesOfMatch; rw [hp]; rfl
  · intro m p hp hz; unfold llamaCandidatesOfMatch; rw [hp]; simp [hz]
  · intro m hp
    unfold llamaCandidatesOfMatch
    rcases hp with h | h
    · rw [h]
    · rw [h]; simp

/-- Claim C9 counterexample: a llama.cpp-family match that advertises
port 0 does not produce a candidate with that port; it is fanned out
over the common-port set, refuting the claim that an advertised port
is always used. -/
theorem claim_C9_counterexample :
    llamaCandidatesOfMatch ⟨"1.2.3.4", some 0⟩ =
      [("1.2.3.4", 8080), ("1.2.3.4", 8000), ("1.2.3.4", 3000),
       ("1.2.3.4", 7860), ("1.2.3.4", 5000), ("1.2.3.4", 8888)] ∧
    llamaCandidatesOfMatch ⟨"1.2.3.4", some 0⟩ ≠ [("1.2.3.4", 0)] := by
  exact ⟨rfl, by decide⟩

/-- Witness for the amended C9 at concrete matches. -/
theorem claim_C9_witness :
    ollamaCandidatesOfMatch ⟨"1.2.3.4", some 8080⟩ = [("1.2.3.4", 8080)] ∧
    ollamaCandidatesOfMatch ⟨"1.2.3.4", none⟩ = [("1.2.3.4", 11434)] ∧
    llamaCandidatesOfMatch ⟨"1.2.3.4", some 8080⟩ = [("1.2.3.4", 8080)] ∧
    llamaCandidatesOfMatch ⟨"1.2.3.4", none⟩ =
      COMMON_PORTS.map (fun q => ("1.2.3.4", q)) :=
  ⟨claim_C9_amended.1 _ 8080 rfl,
   claim_C9_amended.2.1 _ rfl,
   claim_C9_amended.2.2.1 _ 8080 rfl (by decide),
   claim_C9_amended.2.2.2 _ (Or.inl rfl)⟩

/-- Claim C10: both probe functions are total at their public
interface: viewed through the exception layer, they always return a
normal value (a payload or `None`) and never let an exception escape
to the caller. -/
theorem claim_C10 :
    (∀ resp : Except String HttpResponse,
       ∃ v : Option (List Json), test_ollama_server_exc resp = Except.ok v) ∧
    (∀ b : String → Except String HttpResponse,
       ∃ v : Option LlamaResult, test_llama_cpp_server_exc b = Except.ok v) := by
  constructor
  · intro resp
    cases h : test_ollama_server_raw resp with
    | ok v => exact ⟨some v, by simp [test_ollama_server_exc, h]⟩
    | error e => exact ⟨none, by simp [test_ollama_server_exc, h]⟩
  · intro b
    cases h : probeEndpointsExc b endpoints with
    | ok v => exact ⟨v, by simp [test_llama_cpp_server_exc, h]⟩
    | error e => exact ⟨none, by simp [test_llama_cpp_server_exc, h]⟩

theorem processOllamaCandidate_hostError
    (hostLookup : String → Except String Json)
    (futRes : Candidate → Except String (Option (List Json)))
    (c : Candidate) (models : List Json) (e : String)
    (hp : futRes c = Except.ok (some models))
    (he : hostLookup c.1 = Except.error e) :
    processOllamaCandidate hostLookup futRes c = none := by
  unfold processOllamaCandidate
  rw [hp, he]

theorem processLlamaCandidate_hostError
    (hostLookup : String → Except String Json)
    (futRes : Candidate → Except String (Option LlamaResult))
    (c : Candidate) (info : LlamaResult) (e : String)
    (hp : futRes c = Except.ok (some info))
    (he : hostLookup c.1 = Except.error e) :
    processLlamaCandidate hostLookup futRes c = none := by
  unfold processLlamaCandidate
  rw [hp, he]

theorem processOllamaCandidate_emptyHost
    (hostLookup : String → Except String Json)
    (futRes : Candidate → Except String (Option (List Json)))
    (c : Candidate) (models : List Json)
    (hp : futRes c = Except.ok (some models)) (hne : models ≠ [])
    (hh : hostLookup c.1 = Except.ok (Json.obj [])) :
    processOllamaCandidate hostLookup futRes c =
      some { ip_str := c.1, port := c.2, country_name := Json.str "Unknown",
             city_name := Json.str "Unknown", org := Json.str "Unknown",
             hostnames := Json.arr [], models := models } := by
  unfold processOllamaCandidate
  rw [hp, hh]
  cases models with
  | nil => exact absurd rfl hne
  | cons m ms => rfl

theorem processLlamaCandidate_emptyHost
    (hostLookup : String → Except String Json)
    (futRes : Candidate → Except String (Option LlamaResult))
    (c : Candidate) (info : LlamaResult)
    (hp : futRes c = Except.ok (some info))
    (hh : hostLookup c.1 = Except.ok (Json.obj [])) :
    processLlamaCandidate hostLookup futRes c =
      some { ip_str := c.1, port := c.2, server_info := info,
             country_name := Json.str "Unknown", city_name := Json.str "Unknown",
             org := Json.str "Unknown", hostnames := Json.arr [] } := by
  unfold processLlamaCandidate
  rw [hp, hh]
  rfl

theorem processOllamaCandidate_emptyModels
    (hostLookup : String → Except String Json)
    (futRes : Candidate → Except String (Option (List Json)))
    (c : Candidate)
    (hp : futRes c = Except.ok (some [])) :
    processOllamaCandidate hostLookup futRes c = none := by
  unfold processOllamaCandidate
  rw [hp]
  cases hh : hostLookup c.1 with
  | error e => simp
  | ok host => simp

/-- Claim C1 (amended): when the host-metadata lookup for a matched
candidate raises, the candidate is dropped from the report (not
emitted); the "Unknown" sentinel and empty hostname list appear only
when the lookup succeeds but the returned host dict lacks the
enrichment fields. -/
theorem claim_C1_amended
    (hostLookup : String → Except String Json)
    (futRes : Candidate → Except String (Option (List Json)))
    (futResL : Candidate → Except String (Option LlamaResult))
    (cands : List Candidate) (c : Candidate)
    (models : List Json) (info : LlamaResult)
    (hprobe : futRes c = Except.ok (some models)) (hne : models ≠ [])
    (hprobeL : futResL c = Except.ok (some info)) :
    (∀ e, hostLookup c.1 = Except.error e →
       (∀ s ∈ aggregateOllama hostLookup futRes cands,
          ¬(s.ip_str = c.1 ∧ s.port = c.2)) ∧
       (∀ s ∈ aggregateLlama hostLookup futResL cands,
          ¬(s.ip_str = c.1 ∧ s.port = c.2))) ∧
    (hostLookup c.1 = Except.ok (Json.obj []) → c ∈ cands →
       (∃ s, s ∈ aggregateOllama hostLookup futRes cands ∧
          s.ip_str = c.1 ∧ s.port = c.2 ∧
          s.country_name = Json.str "Unknown" ∧ s.city_name = Json.str "Unknown" ∧
          s.org = Json.str "Unknown" ∧ s.hostnames = Json.arr [] ∧
          s.models = models) ∧
       (∃ s, s ∈ aggregateLlama hostLookup futResL cands ∧
          s.ip_str = c.1 ∧ s.port = c.2 ∧
          s.country_name = Json.str "Unknown" ∧ s.city_name = Json.str "Unknown" ∧
          s.org = Json.str "Unknown" ∧ s.hostnames = Json.arr [])) := by
  constructor
  · intro e he
    constructor
    · intro s hs ⟨hip, hport⟩
      obtain ⟨a, ha, hpa⟩ := List.mem_filterMap.mp hs
      obtain ⟨hip2, hport2⟩ := processOllamaCandidate_stamp hostLookup futRes a s hpa
      have h1 : a.1 = c.1 := by rw [← hip2, hip]
      have h2 : a.2 = c.2 := by rw [← hport2, hport]
      have hac : a = c := Prod.ext h1 h2
      rw [hac, processOllamaCandidate_hostError hostLookup futRes c models e hprobe he] at hpa
      exact Option.noConfusion hpa
    · intro s hs ⟨hip, hport⟩
      obtain ⟨a, ha, hpa⟩ := List.mem_filterMap.mp hs
      obtain ⟨hip2, hport2⟩ := processLlamaCandidate_stamp hostLookup futResL a s hpa
      have h1 : a.1 = c.1 := by rw [← hip2, hip]
      have h2 : a.2 = c.2 := by rw [← hport2, hport]
      have hac : a = c := Prod.ext h1 h2
      rw [hac, processLlamaCandidate_hostError hostLookup futResL c info e hprobeL he] at hpa
      exact Option.noConfusion hpa
  · intro hh hc
    constructor
    · refine ⟨_, List.mem_filterMap.mpr
        ⟨c, hc, processOllamaCandidate_emptyHost hostLookup futRes c models hprobe hne hh⟩,
        rfl, rfl, rfl, rfl, rfl, rfl, rfl⟩
    · refine ⟨_, List.mem_filterMap.mpr
        ⟨c, hc, processLlamaCandidate_emptyHost hostLookup futResL c info hprobeL hh⟩,
        rfl, rfl, rfl, rfl, rfl, rfl⟩

/-- Mock index used by the pipeline counterexamples: every query page
returns a single match. -/
def oneMatchSearch : String → Nat → Except String (List ShodanMatch) :=
  fun _ _ => Except.ok [⟨"1.2.3.4", some 11434⟩]

/-- Claim C1 counterexample: a candidate whose probe matched with a
non-empty payload but whose host lookup raises is dropped entirely —
both pipelines emit the empty-result diagnostic envelope instead of
an EnrichedServer with "Unknown" sentinels. -/
theorem claim_C1_counterexample :
    get_ollama_servers_with_models oneMatchSearch
      (fun _ => Except.error "host lookup failed")
      (fun _ => Except.ok (some [Json.str "llama3"])) =
    Report.diagnostic "No accessible Ollama servers found" 1 ollamaQueries ∧
    get_llama_cpp_servers oneMatchSearch
      (fun _ => Except.error "host lookup failed")
      (fun _ => Except.ok (some (LlamaResult.server_header "/" "llama.cpp"))) =
    Report.diagnostic "No accessible llama.cpp servers found" 1 llamaQueries :=
  ⟨rfl, rfl⟩

/-- Mock host lookup for the C1 witness: returns an empty host dict. -/
def c1HostMock : String → Except String Json :=
  fun _ => Except.ok (Json.obj [])

/-- Mock completed Ollama probe for the C1 witness. -/
def c1ProbeMock : Candidate → Except String (Option (List Json)) :=
  fun _ => Except.ok (some [Json.str "llama3"])

/-- Mock completed llama.cpp probe for the C1 witness. -/
def c1ProbeMockL : Candidate → Except String (Option LlamaResult) :=
  fun _ => Except.ok (some (LlamaResult.web_interface "/"))

/-- Witness for the amended C1 at a concrete matched candidate and a
host dict with no enrichment fields. -/
theorem claim_C1_witness :
    (∀ e, c1HostMock "1.2.3.4" = Except.error e →
       (∀ s ∈ aggregateOllama c1HostMock c1ProbeMock
           [("1.2.3.4", (11434 : Int))],
          ¬(s.ip_str = "1.2.3.4" ∧ s.port = 11434)) ∧
       (∀ s ∈ aggregateLlama c1HostMock c1ProbeMockL
           [("1.2.3.4", (11434 : Int))],
          ¬(s.ip_str = "1.2.3.4" ∧ s.port = 11434))) ∧
    (c1HostMock "1.2.3.4" = Except.ok (Json.obj []) →
      ("1.2.3.4", (11434 : Int)) ∈ [("1.2.3.4", (11434 : Int))] →
       (∃ s, s ∈ aggregateOllama c1HostMock c1ProbeMock
           [("1.2.3.4", (11434 : Int))] ∧
          s.ip_str = "1.2.3.4" ∧ s.port = 11434 ∧
          s.country_name = Json.str "Unknown" ∧ s.city_name = Json.str "Unknown" ∧
          s.org = Json.str "Unknown" ∧ s.hostnames = Json.arr [] ∧
          s.models = [Json.str "llama3"]) ∧
       (∃ s, s ∈ aggregateLlama c1HostMock c1ProbeMockL
           [("1.2.3.4", (11434 : Int))] ∧
          s.ip_str = "1.2.3.4" ∧ s.port = 11434 ∧
          s.country_name = Json.str "Unknown" ∧ s.city_name = Json.str "Unknown" ∧
          s.org = Json.str "Unknown" ∧ s.hostnames = Json.arr [])) :=
  claim_C1_amended c1HostMock c1ProbeMock c1ProbeMockL
    [("1.2.3.4", (11434 : Int))] ("1.2.3.4", (11434 : Int))
    [Json.str "llama3"] (LlamaResult.web_interface "/")
    rfl (List.cons_ne_nil _ _) rfl

/-- Claim C2 (amended): in the Ollama family, a Matched probe outcome
carrying an empty model list never yields a server entry in the
report; the llama.cpp family performs no such filtering (see the
counterexample). -/
theorem claim_C2_amended
    (hostLookup : String → Except String Json)
    (futRes : Candidate → Except String (Option (List Json)))
    (cands : List Candidate) (c : Candidate)
    (hprobe : futRes c = Except.ok (some ([] : List Json))) :
    ∀ s ∈ aggregateOllama hostLookup futRes cands,
      ¬(s.ip_str = c.1 ∧ s.port = c.2) := by
  intro s hs ⟨hip, hport⟩
  obtain ⟨a, ha, hpa⟩ := List.mem_filterMap.mp hs
  obtain ⟨hip2, hport2⟩ := processOllamaCandidate_stamp hostLookup futRes a s hpa
  have h1 : a.1 = c.1 := by rw [← hip2, hip]
  have h2 : a.2 = c.2 := by rw [← hport2, hport]
  have hac : a = c := Prod.ext h1 h2
  rw [hac, processOllamaCandidate_emptyModels hostLookup futRes c hprobe] at hpa
  exact Option.noConfusion hpa

/-- Mock index for the C2 counterexample: one llama.cpp match per page. -/
def c2SearchMock : String → Nat → Except String (List ShodanMatch) :=
  fun _ _ => Except.ok [⟨"1.2.3.4", some 8080⟩]

/-- Claim C2 counterexample: in the llama.cpp family, a Matched probe
outcome (`openai_compatible`) whose extracted model list is empty
still appears as a server entry in the final report. -/
theorem claim_C2_counterexample :
    get_llama_cpp_servers c2SearchMock (fun _ => Except.ok (Json.obj []))
      (fun _ => Except.ok (some (LlamaResult.openai_compatible "/v1/models" []
        (Json.obj [("data", Json.arr [])])))) =
    Report.servers
      [{ ip_str := "1.2.3.4", port := 8080,
         server_info := LlamaResult.openai_compatible "/v1/models" []
           (Json.obj [("data", Json.arr [])]),
         country_name := Json.str "Unknown", city_name := Json.str "Unknown",
         org := Json.str "Unknown", hostnames := Json.arr [] }] := rfl

/-- Witness for the amended C2 at a concrete empty-payload candidate:
the aggregation drops it, so the report list is empty. -/
theorem claim_C2_witness :
    aggregateOllama c1HostMock (fun _ => Except.ok (some ([] : List Json)))
      [("1.2.3.4", (11434 : Int))] = [] ∧
    ∀ s ∈ aggregateOllama c1HostMock (fun _ => Except.ok (some ([] : List Json)))
        [("1.2.3.4", (11434 : Int))],
      ¬(s.ip_str = "1.2.3.4" ∧ s.port = 11434) :=
  ⟨rfl,
   claim_C2_amended c1HostMock (fun _ => Except.ok (some ([] : List Json)))
     [("1.2.3.4", (11434 : Int))] ("1.2.3.4", (11434 : Int)) rfl⟩

/-- Claim C3 (amended): a successful Strategy A response whose JSON
body is a dict containing neither `"models"` nor `"tags"` (or is not
a dict at all) makes `test_ollama_server` return the sentinel list
`["Error: Unexpected API response format"]` — not `None` — and such
a candidate is treated as matched: it does appear in the report (with
the sentinel as its model list) whenever enrichment succeeds. -/
theorem claim_C3_amended (r : HttpResponse) (j : Json)
    (hstatus : r.status < 400)
    (hbody : r.jsonBody = Except.ok j)
    (hshape : ∀ fs, j = Json.obj fs →
       lookupField fs "models" = none ∧ lookupField fs "tags" = none) :
    test_ollama_server (Except.ok r) =
      some [Json.str "Error: Unexpected API response format"] ∧
    ∀ (hostLookup : String → Except String Json) (cands : List Candidate)
      (c : Candidate), c ∈ cands → hostLookup c.1 = Except.ok (Json.obj []) →
      ∃ s, s ∈ aggregateOllama hostLookup
          (fun _ => Except.ok (test_ollama_server (Except.ok r))) cands ∧
        s.ip_str = c.1 ∧ s.port = c.2 ∧
        s.models = [Json.str "Error: Unexpected API response format"] := by
  have hrs : raise_for_status r = Except.ok () := by
    unfold raise_for_status
    rw [if_neg (by omega)]
  have hraw : test_ollama_server_raw (Except.ok r) =
      Except.ok [Json.str "Error: Unexpected API response format"] := by
    simp only [test_ollama_server_raw, hrs, hbody]
    cases j with
    | obj fs =>
      obtain ⟨hm, ht⟩ := hshape fs rfl
      simp only [hm, ht]
    | null => rfl
    | bool b => rfl
    | num n => rfl
    | str s => rfl
    | arr a => rfl
  have hprobe : test_ollama_server (Except.ok r) =
      some [Json.str "Error: Unexpected API response format"] := by
    unfold test_ollama_server
    rw [hraw]
  refine ⟨hprobe, ?_⟩
  intro hostLookup cands c hc hh
  refine ⟨_, List.mem_filterMap.mpr ⟨c, hc,
    processOllamaCandidate_emptyHost hostLookup _ c _ (by rw [hprobe]) (by simp) hh⟩,
    rfl, rfl, rfl⟩

/-- The C3 response: HTTP 200 with a JSON dict having neither
recognized key. -/
def c3Resp : HttpResponse :=
  { status := 200, server := "", contentType := "application/json",
    jsonBody := Except.ok (Json.obj [("foo", Json.null)]), text := "" }

/-- Claim C3 counterexample: for a 200 response whose dict body has
neither `"models"` nor `"tags"`, the probe outcome is not
`NotMatched` (`None`): it is the sentinel list, and the candidate
does appear as a server entry in the final report. -/
theorem claim_C3_counterexample :
    test_ollama_server (Except.ok c3Resp) =
      some [Json.str "Error: Unexpected API response format"] ∧
    get_ollama_servers_with_models oneMatchSearch
      (fun _ => Except.ok (Json.obj []))
      (fun _ => Except.ok (test_ollama_server (Except.ok c3Resp))) =
    Report.servers
      [{ ip_str := "1.2.3.4", port := 11434,
         country_name := Json.str "Unknown", city_name := Json.str "Unknown",
         org := Json.str "Unknown", hostnames := Json.arr [],
         models := [Json.str "Error: Unexpected API response format"] }] :=
  ⟨rfl, rfl⟩

/-- Witness for the amended C3 at the concrete response `c3Resp`. -/
theorem claim_C3_witness :
    test_ollama_server (Except.ok c3Resp) =
      some [Json.str "Error: Unexpected API response format"] ∧
    ∀ (hostLookup : String → Except String Json) (cands : List Candidate)
      (c : Candidate), c ∈ cands → hostLookup c.1 = Except.ok (Json.obj []) →
      ∃ s, s ∈ aggregateOllama hostLookup
          (fun _ => Except.ok (test_ollama_server (Except.ok c3Resp))) cands ∧
        s.ip_str = c.1 ∧ s.port = c.2 ∧
        s.models = [Json.str "Error: Unexpected API response format"] :=
  claim_C3_amended c3Resp (Json.obj [("foo", Json.null)]) (by decide) rfl
    (fun fs hf => by cases hf; exact ⟨rfl, rfl⟩)

/-- Claim C7: when the assembled server list is empty the run result is
the diagnostic envelope carrying the unique-candidate count and the
query list; otherwise it is the server array.  The candidate list is
duplicate-free, so its length is the count of unique candidates. -/
theorem claim_C7
    (search : String → Nat → Except String (List ShodanMatch))
    (hostLookup : String → Except String Json)
    (futRes : Candidate → Except String (Option (List Json)))
    (searchL : String → Nat → Except String (List ShodanMatch))
    (hostL : String → Except String Json)
    (futL : Candidate → Except String (Option LlamaResult)) :
    (aggregateOllama hostLookup futRes (discoverOllama search) = [] →
       get_ollama_servers_with_models search hostLookup futRes =
         Report.diagnostic "No accessible Ollama servers found"
           (discoverOllama search).length ollamaQueries) ∧
    (aggregateOllama hostLookup futRes (discoverOllama search) ≠ [] →
       get_ollama_servers_with_models search hostLookup futRes =
         Report.servers (aggregateOllama hostLookup futRes (discoverOllama search))) ∧
    (discoverOllama search).Nodup ∧
    (aggregateLlama hostL futL (discoverLlama searchL) = [] →
       get_llama_cpp_servers searchL hostL futL =
         Report.diagnostic "No accessible llama.cpp servers found"
           (discoverLlama searchL).length llamaQueries) ∧
    (aggregateLlama hostL futL (discoverLlama searchL) ≠ [] →
       get_llama_cpp_servers searchL hostL futL =
         Report.servers (aggregateLlama hostL futL (discoverLlama searchL))) ∧
    (discoverLlama searchL).Nodup := by
  refine ⟨?_, ?_, discoverOllama_nodup search, ?_, ?_, discoverLlama_nodup searchL⟩
  · intro h
    simp only [get_ollama_servers_with_models, h]
    rfl
  · intro h
    have hb : (aggregateOllama hostLookup futRes (discoverOllama search)).isEmpty = false :=
      List.isEmpty_eq_false.mpr h
    simp only [get_ollama_servers_with_models, hb]
    rfl
  · intro h
    simp only [get_llama_cpp_servers, h]
    rfl
  · intro h
    have hb : (aggregateLlama hostL futL (discoverLlama searchL)).isEmpty = false :=
      List.isEmpty_eq_false.mpr h
    simp only [get_llama_cpp_servers, hb]
    rfl

/-- Mock index for the C7 witness: every page fetch raises. -/
def failingSearch : String → Nat → Except String (List ShodanMatch) :=
  fun _ _ => Except.error "auth failed"

/-- Witness for C7: a run that finds nothing emits the diagnostic
envelope with a zero candidate count and the query list. -/
theorem claim_C7_witness :
    get_ollama_servers_with_models failingSearch (fun _ => Except.error "x")
      (fun _ => Except.ok none) =
    Report.diagnostic "No accessible Ollama servers found" 0 ollamaQueries ∧
    get_llama_cpp_servers failingSearch (fun _ => Except.error "x")
      (fun _ => Except.ok none) =
    Report.diagnostic "No accessible llama.cpp servers found" 0 llamaQueries :=
  ⟨(claim_C7 failingSearch (fun _ => Except.error "x") (fun _ => Except.ok none)
      failingSearch (fun _ => Except.error "x") (fun _ => Except.ok none)).1 rfl,
   (claim_C7 failingSearch (fun _ => Except.error "x") (fun _ => Except.ok none)
      failingSearch (fun _ => Except.error "x") (fun _ => Except.ok none)).2.2.2.1 rfl⟩

/-- Claim C8: an exception raised while probing one candidate X is
caught locally and affects X only: X yields no server entry (it is
treated like an unreachable candidate), and the aggregation over all
completed futures equals the aggregation that processes every other
candidate with unchanged results — in both service families. -/
theorem claim_C8
    (hostO : String → Except String Json)
    (fO gO : Candidate → Except String (Option (List Json)))
    (hostL : String → Except String Json)
    (fL gL : Candidate → Except String (Option LlamaResult))
    (X : Candidate) (eO eL : String) (cands : List Candidate)
    (hfO : fO X = Except.error eO)
    (hOagree : ∀ c, c ≠ X → fO c = gO c)
    (hfL : fL X = Except.error eL)
    (hLagree : ∀ c, c ≠ X → fL c = gL c) :
    (∀ s ∈ aggregateOllama hostO fO cands, ¬(s.ip_str = X.1 ∧ s.port = X.2)) ∧
    aggregateOllama hostO fO cands =
      aggregateOllama hostO gO (cands.filter (fun c => decide (c ≠ X))) ∧
    (∀ s ∈ aggregateLlama hostL fL cands, ¬(s.ip_str = X.1 ∧ s.port = X.2)) ∧
    aggregateLlama hostL fL cands =
      aggregateLlama hostL gL (cands.filter (fun c => decide (c ≠ X))) := by
  refine ⟨?_, ?_, ?_, ?_⟩
  · intro s hs ⟨hip, hport⟩
    obtain ⟨a, ha, hpa⟩ := List.mem_filterMap.mp hs
    obtain ⟨hip2, hport2⟩ := processOllamaCandidate_stamp hostO fO a s hpa
    have hac : a = X := Prod.ext (by rw [← hip2, hip]) (by rw [← hport2, hport])
    rw [hac, processOllamaCandidate_error hostO fO X eO hfO] at hpa
    exact Option.noConfusion hpa
  · exact filterMap_agree_drop _ _ X
      (processOllamaCandidate_error hostO fO X eO hfO)
      (fun c hc => processOllamaCandidate_congr hostO fO gO c (hOagree c hc)) cands
  · intro s hs ⟨hip, hport⟩
    obtain ⟨a, ha, hpa⟩ := List.mem_filterMap.mp hs
    obtain ⟨hip2, hport2⟩ := processLlamaCandidate_stamp hostL fL a s hpa
    have hac : a = X := Prod.ext (by rw [← hip2, hip]) (by rw [← hport2, hport])
    rw [hac, processLlamaCandidate_error hostL fL X eL hfL] at hpa
    exact Option.noConfusion hpa
  · exact filterMap_agree_drop _ _ X
      (processLlamaCandidate_error hostL fL X eL hfL)
      (fun c hc => processLlamaCandidate_congr hostL fL gL c (hLagree c hc)) cands

/-- Completed Ollama probes for the C8 witness: candidate
`5.6.7.8:11434` raises, all others match. -/
def c8F : Candidate → Except String (Option (List Json)) :=
  fun c => if c = ("5.6.7.8", 11434) then Except.error "boom"
           else Except.ok (some [Json.str "llama3"])

/-- The same probes without the raising candidate. -/
def c8G : Candidate → Except String (Option (List Json)) :=
  fun _ => Except.ok (some [Json.str "llama3"])

/-- Completed llama.cpp probes for the C8 witness. -/
def c8FL : Candidate → Except String (Option LlamaResult) :=
  fun c => if c = ("5.6.7.8", 11434) then Except.error "boom"
           else Except.ok (some (LlamaResult.web_interface "/"))

/-- The same llama.cpp probes without the raising candidate. -/
def c8GL : Candidate → Except String (Option LlamaResult) :=
  fun _ => Except.ok (some (LlamaResult.web_interface "/"))

/-- Witness for C8 on two candidates where probing the second raises. -/
theorem claim_C8_witness :
    (∀ s ∈ aggregateOllama c1HostMock c8F
        [("1.2.3.4", (11434 : Int)), ("5.6.7.8", (11434 : Int))],
      ¬(s.ip_str = "5.6.7.8" ∧ s.port = 11434)) ∧
    aggregateOllama c1HostMock c8F
        [("1.2.3.4", (11434 : Int)), ("5.6.7.8", (11434 : Int))] =
      aggregateOllama c1HostMock c8G
        (List.filter (fun c => decide (c ≠ ("5.6.7.8", (11434 : Int))))
          [("1.2.3.4", (11434 : Int)), ("5.6.7.8", (11434 : Int))]) ∧
    (∀ s ∈ aggregateLlama c1HostMock c8FL
        [("1.2.3.4", (11434 : Int)), ("5.6.7.8", (11434 : Int))],
      ¬(s.ip_str = "5.6.7.8" ∧ s.port = 11434)) ∧
    aggregateLlama c1HostMock c8FL
        [("1.2.3.4", (11434 : Int)), ("5.6.7.8", (11434 : Int))] =
      aggregateLlama c1HostMock c8GL
        (List.filter (fun c => decide (c ≠ ("5.6.7.8", (11434 : Int))))
          [("1.2.3.4", (11434 : Int)), ("5.6.7.8", (11434 : Int))]) :=
  claim_C8 c1HostMock c8F c8G c1HostMock c8FL c8GL
    ("5.6.7.8", (11434 : Int)) "boom" "boom"
    [("1.2.3.4", (11434 : Int)), ("5.6.7.8", (11434 : Int))]
    rfl (fun c hc => by simp [c8F, c8G, hc])
    rfl (fun c hc => by simp [c8FL, c8GL, hc])

/-- Unfolding equation for the Strategy B endpoint loop. -/
theorem probeEndpointsExc_cons (b : String → Except String HttpResponse)
    (ep : String) (rest : List String) :
    probeEndpointsExc b (ep :: rest) =
      match probe_endpoint_raw ep (b ep) with
      | Except.error _ => probeEndpointsExc b rest
      | Except.ok (some res) => Except.ok (some res)
      | Except.ok none => probeEndpointsExc b rest := rfl

/-- Claim C4: the Strategy B probe tries the endpoints in the fixed
order `/v1/models`, `/`, `/model`, `/v1/completions` and stops at the
first positive signal; a candidate serving a valid model-list JSON
body at `/v1/models` is classified `openai_compatible` with the
extracted model identifiers regardless of what the other endpoints
(e.g. an HTML page with the llama.cpp signature at `/`) would
return — never `web_interface`. -/
theorem claim_C4 (b : String → Except String HttpResponse)
    (r : HttpResponse) (fs : List (String × Json)) (d : Json)
    (items models : List Json)
    (hb : b "/v1/models" = Except.ok r)
    (hst : r.status = 200)
    (hct : strContains (pyLower r.contentType) "json" = true)
    (hjson : r.jsonBody = Except.ok (Json.obj fs))
    (hdata : lookupField fs "data" = some d)
    (hiter : pyIter d = Except.ok items)
    (hmodels : items.mapM (fun m => pyGetDefault m "id" (Json.str "")) =
      Except.ok models) :
    endpoints = ["/v1/models", "/", "/model", "/v1/completions"] ∧
    test_llama_cpp_server b =
      some (LlamaResult.openai_compatible "/v1/models" models (Json.obj fs)) := by
  refine ⟨rfl, ?_⟩
  have hcheck : tryModelsCheck "/v1/models" (pyLower r.contentType) r =
      some (LlamaResult.openai_compatible "/v1/models" models (Json.obj fs)) := by
    unfold tryModelsCheck
    rw [if_pos ⟨rfl, hct⟩, hjson]
    simp only [hdata, hiter, hmodels]
  have hepc : endpointChecks "/v1/models" r =
      some (LlamaResult.openai_compatible "/v1/models" models (Json.obj fs)) := by
    unfold endpointChecks
    rw [if_pos hst]
    simp only [hcheck]
  have h1 : probe_endpoint_raw "/v1/models" (b "/v1/models") =
      Except.ok (some (LlamaResult.openai_compatible "/v1/models" models
        (Json.obj fs))) := by
    rw [hb]
    show Except.ok (endpointChecks "/v1/models" r) = _
    rw [hepc]
  have h2 : probeEndpointsExc b endpoints =
      Except.ok (some (LlamaResult.openai_compatible "/v1/models" models
        (Json.obj fs))) := by
    unfold endpoints
    rw [probeEndpointsExc_cons, h1]
  unfold test_llama_cpp_server
  rw [h2]

/-- The C4 witness response at `/v1/models`: a valid model list. -/
def c4ModelsResp : HttpResponse :=
  { status := 200, server := "llama.cpp", contentType := "application/json",
    jsonBody := Except.ok (Json.obj
      [("data", Json.arr [Json.obj [("id", Json.str "m1")]])]),
    text := "" }

/-- The C4 witness response at every other endpoint: an HTML page
containing the llama.cpp signature. -/
def c4RootResp : HttpResponse :=
  { status := 200, server := "", contentType := "text/html",
    jsonBody := Except.error "not json", text := "llama.cpp chat UI" }

/-- The C4 witness candidate behaviour: model list at `/v1/models`,
signature HTML elsewhere. -/
def c4Behavior : String → Except String HttpResponse :=
  fun ep => if ep = "/v1/models" then Except.ok c4ModelsResp
            else Except.ok c4RootResp

/-- Witness for C4: the mock candidate with both a model list and a
signature HTML page classifies `openai_compatible`. -/
theorem claim_C4_witness :
    endpoints = ["/v1/models", "/", "/model", "/v1/completions"] ∧
    test_llama_cpp_server c4Behavior =
      some (LlamaResult.openai_compatible "/v1/models" [Json.str "m1"]
        (Json.obj [("data", Json.arr [Json.obj [("id", Json.str "m1")]])])) :=
  claim_C4 c4Behavior c4ModelsResp
    [("data", Json.arr [Json.obj [("id", Json.str "m1")]])]
    (Json.arr [Json.obj [("id", Json.str "m1")]])
    [Json.obj [("id", Json.str "m1")]] [Json.str "m1"]
    rfl rfl (by decide) rfl rfl rfl rfl
